import Mathlib

/-!
Verification development for the `python_gtmetrix2` client library
(`src/python_gtmetrix2/__init__.py`).  The request layer
(`Requestor._plain_request`, `Requestor._retry_request`, `Requestor.request`),
the shape predicates (`dict_is_error`, `dict_is_test`, `dict_is_report`,
`dict_is_user`) and the entity operations (`Test.fetch`, `Test.getreport`,
`Test._fromURL`, `Report._fromURL`, `Report.retest`, `Account.start_test`,
`Account.list_tests`, `Account.status`, `Account.testFromId`,
`Account.reportFromId`) are embedded shallowly:

* decoded JSON bodies are values of an inductive `JSON` type; Python dicts are
  association lists of string keys;
* the HTTP transport is abstracted as a function from the attempt number to the
  response the server produces for that attempt (plus the response that a
  redirect would reach, consumed only by the redirect-following opener);
* Python exceptions become an explicit `Exc` sum returned through `Except`;
  unhandled `TypeError`/`KeyError` (subscripting a non-dict, etc.) and
  `ValueError` (from `int()`) get their own constructors since they escape the
  library's own exception taxonomy;
* the injected sleep function is modelled by returning the list of delays it
  was called with;
* `__debug__` is `True` (the Python default), so all `if __debug__:` blocks are
  active.
-/

/-- Decoded JSON values (result of `json.loads`).  Objects are association
lists in insertion order, mirroring Python dicts produced by the `json`
module.  Numbers are modelled as integers (fractional values never matter for
any checked property). -/
inductive JSON where
  | null
  | bool (b : Bool)
  | num (n : Int)
  | str (s : String)
  | arr (elems : List JSON)
  | obj (entries : List (String × JSON))

/-- Key lookup in an association list: Python `d[k]` for a dict, first match. -/
def lookup (l : List (String × JSON)) (k : String) : Option JSON :=
  (l.find? (fun p => p.1 == k)).map (fun p => p.2)

/-- Python `k in d` for a dict: key membership. -/
def listHasKey (l : List (String × JSON)) (k : String) : Bool :=
  l.any (fun p => p.1 == k)

/-- `j[k]`-style lookup returning `none` for non-objects or missing keys. -/
def JSON.get? : JSON → String → Option JSON
  | .obj entries, k => lookup entries k
  | _, _ => none

/-- Python `k in j` restricted to objects (`False` on anything else);
used only where the source guards with `isinstance(j, dict)` first. -/
def JSON.hasKey : JSON → String → Bool
  | .obj entries, k => listHasKey entries k
  | _, _ => false

/-- Python `j == s` comparing a JSON value against a string literal:
true exactly when `j` is that string (values of other types compare unequal,
without raising). -/
def JSON.eqStr : JSON → String → Bool
  | .str t, s => t == s
  | _, _ => false

/-- `isinstance(j, dict)`. -/
def JSON.isObj : JSON → Bool
  | .obj _ => true
  | _ => false

/-- `isinstance(j, list)`. -/
def JSON.isArr : JSON → Bool
  | .arr _ => true
  | _ => false

/-- The entries of an object (used only after an `isinstance(_, dict)` style
guard; `[]` on other values is unreachable there). -/
def JSON.objEntries : JSON → List (String × JSON)
  | .obj entries => entries
  | _ => []

/-- Python `j[k] == s` after a `k in j` guard: the value under `k` is the
string `s`. -/
def JSON.keyEqStr (j : JSON) (k s : String) : Bool :=
  match j.get? k with
  | some v => v.eqStr s
  | none => false

/-- Python `isinstance(j[k], dict)`. -/
def JSON.keyIsObj (j : JSON) (k : String) : Bool :=
  match j.get? k with
  | some (.obj _) => true
  | _ => false

/-- Substring containment, Python `pat in s` for strings. -/
def strContains (s pat : String) : Bool :=
  2 ≤ (s.splitOn pat).length

/-- Python `k in j` on an arbitrary decoded JSON value: key membership for
dicts, element equality for lists, substring for strings; `TypeError`
(modelled as `.error ()`) for null/bool/number. -/
def pyIn (k : String) : JSON → Except Unit Bool
  | .obj entries => .ok (listHasKey entries k)
  | .arr elems => .ok (elems.any (fun e => e.eqStr k))
  | .str s => .ok (strContains s k)
  | _ => .error ()

/-- Python `j[k]` on an arbitrary decoded JSON value: dict item access, with
`KeyError`/`TypeError` (both modelled as `.error ()`) for a missing key or a
non-dict. -/
def pyGetItem (j : JSON) (k : String) : Except Unit JSON :=
  match j with
  | .obj entries =>
    match lookup entries k with
    | some v => .ok v
    | none => .error ()
  | _ => .error ()

/-- `j[k]` where `j` may be Python `None` (the second component of a
`request` result when `return_data` was false): `None[k]` is a `TypeError`. -/
def optGetItem (j : Option JSON) (k : String) : Except Unit JSON :=
  match j with
  | some v => pyGetItem v k
  | none => .error ()

/-- One decimal digit of a Python `int()` literal. -/
def pyDigit? (c : Char) : Option Nat :=
  if 48 ≤ c.toNat ∧ c.toNat ≤ 57 then some (c.toNat - 48) else none

/-- Decimal digits folded into a value; `none` on the first non-digit. -/
def pyDigitsAux (acc : Nat) : List Char → Option Nat
  | [] => some acc
  | c :: cs =>
    match pyDigit? c with
    | some d => pyDigitsAux (10 * acc + d) cs
    | none => none

/-- Python `int(s)` on a string: an optional sign followed by at least one
decimal digit; `none` models the `ValueError` raised otherwise (whitespace
trimming and underscore grouping accepted by Python are not modelled; the
headers the source parses are plain digit strings). -/
def pyInt? (s : String) : Option Int :=
  match s.data with
  | [] => none
  | '-' :: cs =>
    match cs with
    | [] => none
    | _ => (pyDigitsAux 0 cs).map (fun n => -(n : Int))
  | '+' :: cs =>
    match cs with
    | [] => none
    | _ => (pyDigitsAux 0 cs).map (fun n => (n : Int))
  | cs => (pyDigitsAux 0 cs).map (fun n => (n : Int))

/-- The body of an HTTP response as seen after `response.read()`:
empty bytes, bytes that fail `decode()`/`json.loads`, or a decoded value. -/
inductive Body where
  | empty
  | unparsable
  | json (j : JSON)

/-- An HTTP response: status code, body, and headers. -/
structure Response where
  status : Nat
  body : Body
  headers : List (String × String)

/-- `response.getheader(name)` (header lookup; the source only consults
headers it knows the exact spelling of, so lookup is by exact name). -/
def Response.getheader (r : Response) (name : String) : Option String :=
  (r.headers.find? (fun p => p.1 == name)).map (fun p => p.2)

/-- What the server would do for one issued request: the direct response, and
the response a redirect (if any) would land on.  The redirect target is
consumed only by the redirect-following opener. -/
structure Attempt where
  resp : Response
  redirectTarget : Option Response

/-- The exceptions that can escape the request layer.
`errorFailure` is `APIErrorFailureException`, `failure` is
`APIFailureException`, `apiError` is `APIErrorException` (carrying the parsed
envelope, as `e.data`, and the response, as `e.response`); `pyError` is an
unhandled Python `TypeError`/`KeyError` and `valueError` an unhandled
`ValueError` from `int()`. -/
inductive Exc where
  | errorFailure (message : String)
  | failure (message : String)
  | apiError (data : JSON) (response : Response)
  | pyError
  | valueError

/-- Discriminator: is this exception an `APIErrorFailureException`? -/
def Exc.isErrorFailure : Exc → Bool
  | .errorFailure _ => true
  | _ => false

/-- Discriminator: is this exception an `APIErrorException`? -/
def Exc.isAPIError : Exc → Bool
  | .apiError _ _ => true
  | _ => false

/-- `dict_is_error`: the argument is a dict with `status`, `code` and `title`
keys. -/
def dict_is_error (data : JSON) : Bool :=
  data.isObj && data.hasKey "status" && data.hasKey "code" && data.hasKey "title"

/-- `dict_is_test`: a dict with `type == "test"`, an `id`, and a dict-valued
`attributes`. -/
def dict_is_test (data : JSON) : Bool :=
  data.isObj && data.hasKey "type" && data.keyEqStr "type" "test"
    && data.hasKey "id" && data.hasKey "attributes" && data.keyIsObj "attributes"

/-- `dict_is_report`: a dict with `type == "report"`, an `id`, a dict-valued
`attributes` and a dict-valued `links`. -/
def dict_is_report (data : JSON) : Bool :=
  data.isObj && data.hasKey "type" && data.keyEqStr "type" "report"
    && data.hasKey "id" && data.hasKey "attributes" && data.keyIsObj "attributes"
    && data.hasKey "links" && data.keyIsObj "links"

/-- `dict_is_user`: a dict with `type == "user"`, an `id`, a dict-valued
`attributes` containing `api_credits` and `api_refill`. -/
def dict_is_user (data : JSON) : Bool :=
  data.isObj && data.hasKey "type" && data.keyEqStr "type" "user"
    && data.hasKey "id" && data.hasKey "attributes" && data.keyIsObj "attributes"
    && (match data.get? "attributes" with
        | some a => a.hasKey "api_credits" && a.hasKey "api_refill"
        | none => false)

/-- `NoRedirect.redirect_request` returns `None`, so the redirect handler
does not re-issue the request and the original 3xx response surfaces as an
`HTTPError` carrying the same status, headers and body. -/
def NoRedirect.redirect_request : Option Response :=
  none

/-- The net effect of `opener.open` as observed by `_plain_request` after its
`try/except urllib.error.HTTPError` (which converges both outcomes into one
`response` value): responses below 300 come back directly; for a 3xx the
redirect-suppressing opener surfaces the response itself (via `HTTPError`)
while the redirect-following opener transparently delivers the redirect
target; statuses ≥ 400 surface as `HTTPError` with the same payload. -/
def opener_open (follow_redirects : Bool) (a : Attempt) : Response :=
  if 300 ≤ a.resp.status ∧ a.resp.status < 400 then
    if follow_redirects then
      match a.redirectTarget with
      | some t => t
      | none => a.resp
    else
      match NoRedirect.redirect_request with
      | some t => t
      | none => a.resp
  else a.resp

/-- `Requestor._plain_request`: classify one response.  Status ≥ 400 demands a
non-empty, parsable error envelope with a non-empty list of error-shaped
members under `errors` (else `APIErrorFailureException`) and raises
`APIErrorException`; status < 400 with `return_data` demands a non-empty,
parsable body without an `errors` key and with a `data` key (else
`APIFailureException`) and returns `(response, json_data)`; with
`return_data = False` the body is returned unread. -/
def plain_request (follow_redirects : Bool) (a : Attempt) (return_data : Bool) :
    Except Exc (Response × Option JSON) :=
  let response := opener_open follow_redirects a
  if 400 ≤ response.status then
    match response.body with
    | .empty => .error (.errorFailure "API returned empty response")
    | .unparsable => .error (.errorFailure "API returned unparsable JSON")
    | .json json_data =>
      match pyIn "errors" json_data with
      | .error _ => .error .pyError
      | .ok false =>
        .error (.errorFailure "API returned no errors with an HTTP code 400 or over")
      | .ok true =>
        match pyGetItem json_data "errors" with
        | .error _ => .error .pyError
        | .ok errs =>
          match errs with
          | .arr l =>
            if l.length < 1 then
              .error (.errorFailure "API returned empty list of errors")
            else if !(l.all dict_is_error) then
              .error (.errorFailure "API returned non-error in error list")
            else
              .error (.apiError json_data response)
          | _ => .error (.errorFailure "API returned non-list of errors")
  else
    if return_data = false then
      .ok (response, none)
    else
      match response.body with
      | .empty => .error (.failure "API returned empty response")
      | .unparsable => .error (.failure "API returned unparsable JSON")
      | .json json_data =>
        match pyIn "errors" json_data with
        | .error _ => .error .pyError
        | .ok true =>
          .error (.failure
            ("API returned errors with an HTTP code " ++ toString response.status ++ " under 400"))
        | .ok false =>
          match pyIn "data" json_data with
          | .error _ => .error .pyError
          | .ok false => .error (.failure "API returned no data")
          | .ok true => .ok (response, some json_data)

/-- `Requestor._retry_request`: call `_plain_request`; on `APIErrorException`
inspect `e.data["errors"]`.  The loop body always raises or returns, so only
the first error is examined (an empty list falls off the loop and returns
`None`, modelled as `.ok none`).  First error with `status != "429"`
re-raises; `code == "E42900"` retries after 3 time units; `code == "E42901"`
retries after `max(1, int(header))` with the `X-RateLimit-Reset` header
defaulting to 3; any other code re-raises; an exhausted budget
(`retries <= 0`) re-raises.  The returned list records the arguments the
injected sleep function was called with, in order. -/
def retry_request (T : Nat → Attempt) (follow_redirects return_data : Bool)
    (attempt : Nat) (retries : Int) :
    List Int × Except Exc (Option (Response × Option JSON)) :=
  match plain_request follow_redirects (T attempt) return_data with
  | .ok v => ([], .ok (some v))
  | .error (.apiError data response) =>
    (match pyGetItem data "errors" with
     | .error _ => ([], .error .pyError)
     | .ok (.arr l) =>
       (match l with
        | [] => ([], .ok none)
        | err :: _ =>
          match pyGetItem err "status" with
          | .error _ => ([], .error .pyError)
          | .ok sv =>
            if !(sv.eqStr "429") then ([], .error (.apiError data response))
            else
              match pyGetItem err "code" with
              | .error _ => ([], .error .pyError)
              | .ok cv =>
                let delay? : Except Exc Int :=
                  if cv.eqStr "E42900" then .ok 3
                  else if cv.eqStr "E42901" then
                    match response.getheader "X-RateLimit-Reset" with
                    | none => .ok 3
                    | some s =>
                      match pyInt? s with
                      | none => .error .valueError
                      | some n => .ok (max 1 n)
                  else .error (.apiError data response)
                match delay? with
                | .error e => ([], .error e)
                | .ok delay =>
                  if h : retries ≤ 0 then ([], .error (.apiError data response))
                  else
                    let rest := retry_request T follow_redirects return_data
                      (attempt + 1) (retries - 1)
                    (delay :: rest.1, rest.2))
     | .ok _ => ([], .error .pyError))
  | .error e => ([], .error e)
termination_by retries.toNat
decreasing_by
  simp only [not_le] at h
  omega

/-- `Requestor.request`: select the opener by `follow_redirects` and delegate
to `_retry_request` (attempt numbering starts at 0). -/
def request (T : Nat → Attempt) (follow_redirects : Bool) (retries : Int)
    (return_data : Bool) :
    List Int × Except Exc (Option (Response × Option JSON)) :=
  retry_request T follow_redirects return_data 0 retries

/-- Python `dict.update(new)` on association lists: values of keys present in
`new` are overwritten in place, keys absent from `new` are kept, keys new to
the dict are appended in `new`'s order. -/
def dictUpdate (old new : List (String × JSON)) : List (String × JSON) :=
  (old.map (fun p =>
    match lookup new p.1 with
    | some v => (p.1, v)
    | none => p))
  ++ new.filter (fun p => !(listHasKey old p.1))

/-- Python `d[k] = v` on association lists: overwrite in place if the key
exists, else append. -/
def dictSet (d : List (String × JSON)) (k : String) (v : JSON) :
    List (String × JSON) :=
  if listHasKey d k then
    d.map (fun p => if p.1 == k then (k, v) else p)
  else
    d ++ [(k, v)]

/-- The mutable state of a `Test` instance: its dict content (a `Test` *is* a
dict) plus the `_report` single-slot cache (the cached `Report`'s dict
content).  The `_requestor`/`_sleep` fields are carried by the ambient
transport/trace parameters of each operation. -/
structure TestState where
  entries : List (String × JSON)
  report : Option (List (String × JSON))

/-- `Test.__init__` via `Object.__init__`: the dict content is copied from
`data`; the `_report` class attribute starts as `None`. -/
def Test.mk (data : List (String × JSON)) : TestState :=
  { entries := data, report := none }

/-- `Test.fetch`: GET `tests/{id}` (redirects suppressed, request retry
budget left at its default 10), require `response_data["data"]` to be
test-shaped (else `APIFailureException`), then `self.update(...)` the dict in
place.  If a `Retry-After` header is present and the caller asked to wait and
the poll budget is positive, sleep `max(1, int(header))` and fetch again with
the budget decremented.  `T round attempt` is the server's response for HTTP
attempt `attempt` of poll round `round`; the returned list records all sleep
calls. -/
def Test.fetch (t : TestState) (T : Nat → Nat → Attempt)
    (wait_for_complete : Bool) (retries : Int) :
    List Int × Except Exc TestState :=
  -- "tests/" + self["id"]: KeyError when the id is missing, TypeError when
  -- it is not a string; the URL itself is abstracted by the transport `T`.
  match lookup t.entries "id" with
  | none => ([], .error .pyError)
  | some (.str _) =>
    (match request (T 0) false 10 true with
  | (ws, .error e) => (ws, .error e)
  | (ws, .ok none) => (ws, .error .pyError)
  | (ws, .ok (some (response, response_data))) =>
    match optGetItem response_data "data" with
    | .error _ => (ws, .error .pyError)
    | .ok d =>
      if !(dict_is_test d) then
        (ws, .error (.failure "API returned non-test for a test"))
      else
        let t' : TestState := { t with entries := dictUpdate t.entries d.objEntries }
        match response.getheader "Retry-After" with
        | none => (ws, .ok t')
        | some dl =>
          if h : ¬ wait_for_complete ∨ retries ≤ 0 then (ws, .ok t')
          else
            match pyInt? dl with
            | none => (ws, .error .valueError)
            | some n =>
              let rest := Test.fetch t' (fun r => T (r + 1)) wait_for_complete (retries - 1)
              (ws ++ max 1 n :: rest.1, rest.2))
  | some _ => ([], .error .pyError)
termination_by retries.toNat
decreasing_by
  simp only [not_or, not_le] at h
  omega

/-- The response-processing part of `Report._fromURL`: request the report's
URL, require `response_data["data"]` to be report-shaped (else
`APIFailureException`), and return the new `Report`'s dict content. -/
def Report.fromURL (T : Nat → Attempt) :
    List Int × Except Exc (List (String × JSON)) :=
  match request T false 10 true with
  | (ws, .error e) => (ws, .error e)
  | (ws, .ok none) => (ws, .error .pyError)
  | (ws, .ok (some (response, response_data))) =>
    match optGetItem response_data "data" with
    | .error _ => (ws, .error .pyError)
    | .ok d =>
      if !(dict_is_report d) then
        (ws, .error (.failure "API returned non-report for a report"))
      else
        (ws, .ok d.objEntries)

/-- The response-processing part of `Test._fromURL`: request the test's URL,
require `response_data["data"]` to be test-shaped (else
`APIFailureException`), and return a fresh `Test`. -/
def Test.fromURL (T : Nat → Attempt) : List Int × Except Exc TestState :=
  match request T false 10 true with
  | (ws, .error e) => (ws, .error e)
  | (ws, .ok none) => (ws, .error .pyError)
  | (ws, .ok (some (response, response_data))) =>
    match optGetItem response_data "data" with
    | .error _ => (ws, .error .pyError)
    | .ok d =>
      if !(dict_is_test d) then
        (ws, .error (.failure "API returned non-test for a test"))
      else
        (ws, .ok (Test.mk d.objEntries))

/-- `Test.getreport`: if the `_report` cache is filled, return it; else if
`"links" in self and "report" in self["links"]`, resolve the report URL via
`Report._fromURL` (the transport `T` abstracts that URL), cache and return
it; otherwise return `None` without any request.  The result pairs the
(possibly updated) `Test` state with the returned report content. -/
def Test.getreport (t : TestState) (T : Nat → Attempt) :
    List Int × Except Exc (TestState × Option (List (String × JSON))) :=
  match t.report with
  | some r => ([], .ok (t, some r))
  | none =>
    if listHasKey t.entries "links" then
      match lookup t.entries "links" with
      | none => ([], .error .pyError)
      | some links =>
        match pyIn "report" links with
        | .error _ => ([], .error .pyError)
        | .ok false => ([], .ok (t, none))
        | .ok true =>
          match Report.fromURL T with
          | (ws, .error e) => (ws, .error e)
          | (ws, .ok r) => (ws, .ok ({ t with report := some r }, some r))
    else
      ([], .ok (t, none))

/-- `Report.retest`: POST `reports/{id}/retest`, require
`response_data["data"]` to be test-shaped (else `APIFailureException`), and
return a brand-new `Test`. -/
def Report.retest (T : Nat → Attempt) : List Int × Except Exc TestState :=
  match request T false 10 true with
  | (ws, .error e) => (ws, .error e)
  | (ws, .ok none) => (ws, .error .pyError)
  | (ws, .ok (some (response, response_data))) =>
    match optGetItem response_data "data" with
    | .error _ => (ws, .error .pyError)
    | .ok d =>
      if !(dict_is_test d) then
        (ws, .error (.failure "API returned non-test for a retest"))
      else
        (ws, .ok (Test.mk d.objEntries))

/-- `Account.list_tests` (response-processing part): GET the tests
collection, require `response_data["data"]` to be a list of test-shaped
members (else `APIFailureException`), and wrap each into a `Test`. -/
def Account.list_tests (T : Nat → Attempt) :
    List Int × Except Exc (List TestState) :=
  match request T false 10 true with
  | (ws, .error e) => (ws, .error e)
  | (ws, .ok none) => (ws, .error .pyError)
  | (ws, .ok (some (response, response_data))) =>
    match optGetItem response_data "data" with
    | .error _ => (ws, .error .pyError)
    | .ok d =>
      match d with
      | .arr tests =>
        if !(tests.all dict_is_test) then
          (ws, .error (.failure "API returned non-test in a list of tests"))
        else
          (ws, .ok (tests.map (fun td => Test.mk td.objEntries)))
      | _ => (ws, .error (.failure "API returned non-list for a list of tests"))

/-- `Account.status`: GET `status`, require `response_data["data"]` to be
user-shaped (else `APIFailureException`), and return it as plain data. -/
def Account.status (T : Nat → Attempt) : List Int × Except Exc JSON :=
  match request T false 10 true with
  | (ws, .error e) => (ws, .error e)
  | (ws, .ok none) => (ws, .error .pyError)
  | (ws, .ok (some (response, response_data))) =>
    match optGetItem response_data "data" with
    | .error _ => (ws, .error .pyError)
    | .ok d =>
      if !(dict_is_user d) then
        (ws, .error (.failure "API returned non-user for status"))
      else
        (ws, .ok d)

/-- The POST body built by `Account.start_test`:
`attributes["url"] = url` (positional argument overwrites any caller-supplied
`url` attribute), then `{"data": {"type": "test", "attributes": attributes}}`. -/
def Account.start_test_body (url : String) (attributes : List (String × JSON)) : JSON :=
  .obj [("data", .obj [("type", .str "test"),
                       ("attributes", .obj (dictSet attributes "url" (.str url)))])]

/-- `Account.start_test`: POST the body above to `tests`, require
`response_data["data"]` to be test-shaped (else `APIFailureException`), and
wrap it into a `Test`.  The first component is the body sent on the wire. -/
def Account.start_test (T : Nat → Attempt) (url : String)
    (attributes : List (String × JSON)) :
    JSON × (List Int × Except Exc TestState) :=
  (Account.start_test_body url attributes,
   match request T false 10 true with
   | (ws, .error e) => (ws, .error e)
   | (ws, .ok none) => (ws, .error .pyError)
   | (ws, .ok (some (response, response_data))) =>
     match optGetItem response_data "data" with
     | .error _ => (ws, .error .pyError)
     | .ok d =>
       if !(dict_is_test d) then
         (ws, .error (.failure "API returned non-test for a started test"))
       else
         (ws, .ok (Test.mk d.objEntries)))

/-- Python strings modelled as character lists for the URL computations of
`Test._fromURL` / `Report._fromURL` and `Account.testFromId` /
`Account.reportFromId` (`str.startswith` is list-prefix, slicing
`url[len(base):]` is `List.drop`). -/
def fromURL_strip (base url : List Char) : List Char :=
  if base.isPrefixOf url then url.drop base.length else url

/-- Line 209 of the source: the requested URL is `self.base_url + url`. -/
def Requestor.full_url (base url : List Char) : List Char :=
  base ++ url

/-- The URL ultimately requested by `Account.testFromId`: it hands
`base_url + "/tests/" + test_id` to `Test._fromURL`, which strips the
`base_url` prefix before `Requestor.request` prepends it again. -/
def Account.testFromId_request_url (base test_id : List Char) : List Char :=
  Requestor.full_url base (fromURL_strip base (base ++ "/tests/".data ++ test_id))

/-- The URL ultimately requested by `Account.reportFromId`, analogously via
`Report._fromURL`. -/
def Account.reportFromId_request_url (base report_id : List Char) : List Char :=
  Requestor.full_url base (fromURL_strip base (base ++ "/reports/".data ++ report_id))

/-- A character list contains two consecutive slashes. -/
def containsDoubleSlash (l : List Char) : Prop :=
  ∃ u v, l = u ++ '/' :: '/' :: v

theorem lookup_hasKey {l : List (String × JSON)} {k : String} {v : JSON}
    (h : lookup l k = some v) : listHasKey l k = true := by
  induction l with
  | nil => simp [lookup] at h
  | cons p rest ih =>
    by_cases hp : p.1 == k
    · simp [listHasKey, hp]
    · simp only [lookup, List.find?] at h
      rw [Bool.not_eq_true] at hp
      simp only [hp] at h
      simp only [listHasKey, List.any_cons, hp, Bool.false_or]
      exact ih h

theorem opener_open_noredirect (a : Attempt) : opener_open false a = a.resp := by
  unfold opener_open NoRedirect.redirect_request
  split <;> rfl

theorem opener_open_ge400 (fr : Bool) (a : Attempt) (h : 400 ≤ a.resp.status) :
    opener_open fr a = a.resp := by
  unfold opener_open
  rw [if_neg]
  omega

theorem lookup_map_overwrite {d : List (String × JSON)} {k : String} {v : JSON}
    (h : listHasKey d k = true) :
    lookup (d.map (fun p => if p.1 == k then (k, v) else p)) k = some v := by
  induction d with
  | nil => simp [listHasKey] at h
  | cons p rest ih =>
    by_cases hp : (p.1 == k) = true
    · simp [lookup, List.find?, hp]
    · rw [Bool.not_eq_true] at hp
      simp only [listHasKey, List.any_cons, hp, Bool.false_or] at h
      simp only [List.map_cons, lookup, List.find?, hp, Bool.false_eq_true, ite_false]
      exact ih h

theorem lookup_append_single {d : List (String × JSON)} {k : String} {v : JSON}
    (h : listHasKey d k = false) :
    lookup (d ++ [(k, v)]) k = some v := by
  induction d with
  | nil => simp [lookup, List.find?]
  | cons p rest ih =>
    simp only [listHasKey, List.any_cons, Bool.or_eq_false_iff] at h
    simp only [List.cons_append, lookup, List.find?, h.1]
    exact ih h.2

theorem lookup_dictSet_self (d : List (String × JSON)) (k : String) (v : JSON) :
    lookup (dictSet d k v) k = some v := by
  unfold dictSet
  by_cases h : listHasKey d k
  · rw [if_pos h]
    exact lookup_map_overwrite h
  · rw [Bool.not_eq_true] at h
    rw [if_neg (by simp [h])]
    exact lookup_append_single h

theorem isPrefixOf_self_append (a b : List Char) : a.isPrefixOf (a ++ b) = true := by
  induction a with
  | nil => cases b <;> rfl
  | cons c rest ih =>
    show (c == c && rest.isPrefixOf (rest ++ b)) = true
    simp [ih]

/-- C9: `Account.testFromId` hands `base_url + "/tests/" + test_id` to
`Test._fromURL`; the `base_url` prefix is stripped (leaving a leading slash)
and `Requestor.request` prepends `base_url` again, so the requested URL is
exactly `base_url + "/tests/" + test_id`; whenever `base_url` ends with `"/"`
that URL contains a doubled slash.  `Account.reportFromId` behaves
identically with `"/reports/"`. -/
theorem testFromId_reportFromId_request_urls (base test_id report_id : List Char) :
    Account.testFromId_request_url base test_id = base ++ "/tests/".data ++ test_id
    ∧ Account.reportFromId_request_url base report_id = base ++ "/reports/".data ++ report_id
    ∧ (∀ b0, base = b0 ++ ['/'] →
        containsDoubleSlash (Account.testFromId_request_url base test_id)
        ∧ containsDoubleSlash (Account.reportFromId_request_url base report_id)) := by
  have hteq : Account.testFromId_request_url base test_id
      = base ++ "/tests/".data ++ test_id := by
    unfold Account.testFromId_request_url fromURL_strip Requestor.full_url
    rw [List.append_assoc, isPrefixOf_self_append, if_pos rfl, List.drop_left]
  have hreq : Account.reportFromId_request_url base report_id
      = base ++ "/reports/".data ++ report_id := by
    unfold Account.reportFromId_request_url fromURL_strip Requestor.full_url
    rw [List.append_assoc, isPrefixOf_self_append, if_pos rfl, List.drop_left]
  refine ⟨hteq, hreq, ?_⟩
  intro b0 hb0
  constructor
  · exact ⟨b0, "tests/".data ++ test_id, by rw [hteq, hb0]; simp⟩
  · exact ⟨b0, "reports/".data ++ report_id, by rw [hreq, hb0]; simp⟩

/-- Witness for C9 at the default base URL
`"https://gtmetrix.com/api/2.0/"` and id `"x"`. -/
theorem testFromId_reportFromId_request_urls_witness :
    Account.testFromId_request_url "https://gtmetrix.com/api/2.0/".data "x".data
      = "https://gtmetrix.com/api/2.0/".data ++ "/tests/".data ++ "x".data
    ∧ containsDoubleSlash
        (Account.testFromId_request_url "https://gtmetrix.com/api/2.0/".data "x".data) :=
  ⟨(testFromId_reportFromId_request_urls
      "https://gtmetrix.com/api/2.0/".data "x".data "x".data).1,
   ((testFromId_reportFromId_request_urls
      "https://gtmetrix.com/api/2.0/".data "x".data "x".data).2.2
      "https://gtmetrix.com/api/2.0".data (by decide)).1⟩

/-- C10: in `Account.start_test(url, **attributes)` the positional `url`
argument overwrites any caller-supplied `"url"` attribute: the POST body is
`{"data": {"type": "test", "attributes": ...}}` and the `"url"` entry of its
attributes equals the positional argument, whatever `attributes` contained. -/
theorem start_test_positional_url_overwrites (T : Nat → Attempt) (url : String)
    (attributes : List (String × JSON)) :
    (Account.start_test T url attributes).1
      = .obj [("data", .obj [("type", .str "test"),
          ("attributes", .obj (dictSet attributes "url" (.str url)))])]
    ∧ lookup (dictSet attributes "url" (.str url)) "url" = some (.str url) :=
  ⟨rfl, lookup_dictSet_self attributes "url" (.str url)⟩

theorem plain_request_success {a : Attempt} {kvs : List (String × JSON)}
    (hs : a.resp.status < 400) (hb : a.resp.body = .json (.obj kvs))
    (herr : listHasKey kvs "errors" = false)
    (hdata : listHasKey kvs "data" = true) :
    plain_request false a true = .ok (a.resp, some (.obj kvs)) := by
  simp only [plain_request, opener_open_noredirect, hb]
  rw [if_neg (by omega)]
  simp [pyIn, herr, hdata]

theorem plain_request_error_envelope (fr rd : Bool) {a : Attempt}
    {kvs : List (String × JSON)} {l : List JSON}
    (hs : 400 ≤ a.resp.status) (hb : a.resp.body = .json (.obj kvs))
    (hl : lookup kvs "errors" = some (.arr l)) (hne : l ≠ [])
    (hall : l.all dict_is_error = true) :
    plain_request fr a rd = .error (.apiError (.obj kvs) a.resp) := by
  simp only [plain_request, opener_open_ge400 fr a hs, hb]
  rw [if_pos hs]
  have hk : listHasKey kvs "errors" = true := lookup_hasKey hl
  simp only [pyIn, hk, pyGetItem, hl]
  rw [if_neg (by simp [Nat.lt_one_iff, List.length_eq_zero, hne])]
  simp [hall]

theorem retry_request_ok {T : Nat → Attempt} {fr rd : Bool} {a : Nat} {n : Int}
    {v : Response × Option JSON}
    (hv : plain_request fr (T a) rd = .ok v) :
    retry_request T fr rd a n = ([], .ok (some v)) := by
  unfold retry_request
  rw [hv]

theorem retry_request_pass {T : Nat → Attempt} {fr rd : Bool} {a : Nat} {n : Int}
    {e : Exc} (he : plain_request fr (T a) rd = .error e)
    (hna : e.isAPIError = false) :
    retry_request T fr rd a n = ([], .error e) := by
  unfold retry_request
  rw [he]
  cases e with
  | errorFailure m => rfl
  | failure m => rfl
  | apiError d r => simp [Exc.isAPIError] at hna
  | pyError => rfl
  | valueError => rfl

theorem retry_request_non429 {T : Nat → Attempt} {fr rd : Bool} {a : Nat} (n : Int)
    {env : JSON} {resp : Response} {err : JSON} {rest : List JSON} {sv : JSON}
    (hp : plain_request fr (T a) rd = .error (.apiError env resp))
    (he : pyGetItem env "errors" = .ok (.arr (err :: rest)))
    (hst : pyGetItem err "status" = .ok sv)
    (hsv : sv.eqStr "429" = false) :
    retry_request T fr rd a n = ([], .error (.apiError env resp)) := by
  rw [retry_request.eq_def, hp]
  simp [he, hst, hsv]

theorem retry_request_unknown_code {T : Nat → Attempt} {fr rd : Bool} {a : Nat}
    (n : Int) {env : JSON} {resp : Response} {err : JSON} {rest : List JSON}
    {sv cv : JSON}
    (hp : plain_request fr (T a) rd = .error (.apiError env resp))
    (he : pyGetItem env "errors" = .ok (.arr (err :: rest)))
    (hst : pyGetItem err "status" = .ok sv)
    (hsv : sv.eqStr "429" = true)
    (hc : pyGetItem err "code" = .ok cv)
    (h0 : cv.eqStr "E42900" = false) (h1 : cv.eqStr "E42901" = false) :
    retry_request T fr rd a n = ([], .error (.apiError env resp)) := by
  rw [retry_request.eq_def, hp]
  simp [he, hst, hsv, hc, h0, h1]

theorem retry_request_E42900_step {T : Nat → Attempt} {fr rd : Bool} {a : Nat}
    (n : Int) {env : JSON} {resp : Response} {err : JSON} {rest : List JSON}
    {sv cv : JSON}
    (hp : plain_request fr (T a) rd = .error (.apiError env resp))
    (he : pyGetItem env "errors" = .ok (.arr (err :: rest)))
    (hst : pyGetItem err "status" = .ok sv)
    (hsv : sv.eqStr "429" = true)
    (hc : pyGetItem err "code" = .ok cv)
    (h0 : cv.eqStr "E42900" = true)
    (hn : ¬ n ≤ 0) :
    retry_request T fr rd a n
      = (3 :: (retry_request T fr rd (a + 1) (n - 1)).1,
         (retry_request T fr rd (a + 1) (n - 1)).2) := by
  rw [retry_request.eq_def, hp]
  simp [he, hst, hsv, hc, h0, hn]

theorem retry_request_E42901_header_step {T : Nat → Attempt} {fr rd : Bool}
    {a : Nat} (n : Int) {env : JSON} {resp : Response} {err : JSON}
    {rest : List JSON} {sv cv : JSON} {s : String} {m : Int}
    (hp : plain_request fr (T a) rd = .error (.apiError env resp))
    (he : pyGetItem env "errors" = .ok (.arr (err :: rest)))
    (hst : pyGetItem err "status" = .ok sv)
    (hsv : sv.eqStr "429" = true)
    (hc : pyGetItem err "code" = .ok cv)
    (h0 : cv.eqStr "E42900" = false) (h1 : cv.eqStr "E42901" = true)
    (hh : resp.getheader "X-RateLimit-Reset" = some s)
    (hm : pyInt? s = some m)
    (hn : ¬ n ≤ 0) :
    retry_request T fr rd a n
      = (max 1 m :: (retry_request T fr rd (a + 1) (n - 1)).1,
         (retry_request T fr rd (a + 1) (n - 1)).2) := by
  rw [retry_request.eq_def, hp]
  simp [he, hst, hsv, hc, h0, h1, hh, hm, hn]

theorem retry_request_E42901_noheader_step {T : Nat → Attempt} {fr rd : Bool}
    {a : Nat} (n : Int) {env : JSON} {resp : Response} {err : JSON}
    {rest : List JSON} {sv cv : JSON}
    (hp : plain_request fr (T a) rd = .error (.apiError env resp))
    (he : pyGetItem env "errors" = .ok (.arr (err :: rest)))
    (hst : pyGetItem err "status" = .ok sv)
    (hsv : sv.eqStr "429" = true)
    (hc : pyGetItem err "code" = .ok cv)
    (h0 : cv.eqStr "E42900" = false) (h1 : cv.eqStr "E42901" = true)
    (hh : resp.getheader "X-RateLimit-Reset" = none)
    (hn : ¬ n ≤ 0) :
    retry_request T fr rd a n
      = (3 :: (retry_request T fr rd (a + 1) (n - 1)).1,
         (retry_request T fr rd (a + 1) (n - 1)).2) := by
  rw [retry_request.eq_def, hp]
  simp [he, hst, hsv, hc, h0, h1, hh, hn]

theorem retry_request_exhausted {T : Nat → Attempt} {fr rd : Bool} {a : Nat}
    (n : Int) {env : JSON} {resp : Response} {err : JSON} {rest : List JSON}
    {sv cv : JSON}
    (hp : plain_request fr (T a) rd = .error (.apiError env resp))
    (he : pyGetItem env "errors" = .ok (.arr (err :: rest)))
    (hst : pyGetItem err "status" = .ok sv)
    (hsv : sv.eqStr "429" = true)
    (hc : pyGetItem err "code" = .ok cv)
    (hok : cv.eqStr "E42900" = true
      ∨ (cv.eqStr "E42901" = true
          ∧ (resp.getheader "X-RateLimit-Reset" = none
             ∨ ∃ s m, resp.getheader "X-RateLimit-Reset" = some s ∧ pyInt? s = some m)))
    (hn : n ≤ 0) :
    retry_request T fr rd a n = ([], .error (.apiError env resp)) := by
  rw [retry_request.eq_def, hp]
  rcases hok with h0 | ⟨h1, hh⟩
  · simp [he, hst, hsv, hc, h0, hn]
  · rcases hh with hh | ⟨s, m, hh, hm⟩
    · by_cases h0 : cv.eqStr "E42900" = true <;> simp [he, hst, hsv, hc, h0, h1, hh, hn]
    · by_cases h0 : cv.eqStr "E42900" = true <;>
        simp [he, hst, hsv, hc, h0, h1, hh, hm, hn]

theorem retry_request_waits_length (T : Nat → Attempt) (fr rd : Bool)
    (a : Nat) (retries : Int) :
    ((retry_request T fr rd a retries).1).length ≤ retries.toNat := by
  induction a, retries using retry_request.induct T fr rd with
  | case1 a n v hv =>
    rw [retry_request_ok hv]
    simp
  | case2 a n env resp hp u hu =>
    rw [retry_request.eq_def, hp]
    simp [hu]
  | case3 a n env resp hp herr =>
    rw [retry_request.eq_def, hp]
    simp [herr]
  | case4 a n env resp hp err tail u hsta herr =>
    rw [retry_request.eq_def, hp]
    simp [herr, hsta]
  | case5 a n env resp hp err tail sv hst h429 herr =>
    rw [retry_request.eq_def, hp]
    simp [herr, hst, h429]
  | case6 a n env resp hp err tail sv hst h429n u hca herr =>
    rw [retry_request.eq_def, hp]
    simp [herr, hst, h429n, hca]
  | case7 a n env resp hp err tail sv hst h429n cv hc dq eexc hdq herr =>
    have hsv : sv.eqStr "429" = true := by simpa using h429n
    rw [retry_request.eq_def, hp]
    unfold_let dq at hdq
    simp only [dite_eq_ite] at hdq
    simp [herr, hst, hsv, hc, hdq]
  | case8 a n env resp hp err tail sv hst h429n cv hc dq delay hdq hn0 herr =>
    have hsv : sv.eqStr "429" = true := by simpa using h429n
    rw [retry_request.eq_def, hp]
    unfold_let dq at hdq
    simp only [dite_eq_ite] at hdq
    simp [herr, hst, hsv, hc, hdq, hn0]
  | case9 a n env resp hp err tail sv hst h429n cv hc dq delay hdq hn1 herr ih =>
    have hsv : sv.eqStr "429" = true := by simpa using h429n
    rw [retry_request.eq_def, hp]
    unfold_let dq at hdq
    simp only [dite_eq_ite] at hdq
    simp [herr, hst, hsv, hc, hdq, hn1]
    omega
  | case10 a n env resp hp j hnotarr herr =>
    rw [retry_request.eq_def, hp]
    cases j with
    | arr l => exact absurd rfl (hnotarr l)
    | null => simp [herr]
    | bool b => simp [herr]
    | num m => simp [herr]
    | str s => simp [herr]
    | obj entries => simp [herr]
  | case11 a n e hne hp =>
    rw [retry_request.eq_def, hp]
    cases e with
    | errorFailure m => simp
    | failure m => simp
    | apiError d r => exact absurd rfl (hne d r)
    | pyError => simp
    | valueError => simp

/-- C1: for every response with HTTP status < 400 whose body parses to a
well-formed success envelope `{"data": X}` (a JSON object with a `"data"` key
and no `"errors"` key), `Requestor.request` with envelope decoding enabled
succeeds without retries and the `"data"` entry of the JSON it returns is the
decoded `X` unchanged. -/
theorem request_success_returns_data (T : Nat → Attempt) (n : Int)
    (kvs : List (String × JSON)) (X : JSON)
    (hs : (T 0).resp.status < 400)
    (hb : (T 0).resp.body = .json (.obj kvs))
    (herr : listHasKey kvs "errors" = false)
    (hX : lookup kvs "data" = some X) :
    request T false n true = ([], .ok (some ((T 0).resp, some (.obj kvs))))
    ∧ (JSON.obj kvs).get? "data" = some X := by
  refine ⟨?_, hX⟩
  show retry_request T false true 0 n = _
  exact retry_request_ok (plain_request_success hs hb herr (lookup_hasKey hX))

/-- Fixture: a 200 response carrying a test-shaped success envelope. -/
def successEnvEntries : List (String × JSON) :=
  [("data", .obj [("type", .str "test"), ("id", .str "a"),
                  ("attributes", .obj [("n", .num 1)])])]

/-- Fixture: the transport attempt delivering `successEnvEntries`. -/
def successAttempt : Attempt :=
  { resp := { status := 200, body := .json (.obj successEnvEntries), headers := [] },
    redirectTarget := none }

/-- Witness for C1: a concrete 200 response with envelope
`{"data": {"type": "test", "id": "a", "attributes": {"n": 1}}}`. -/
theorem request_success_returns_data_witness :
    request (fun _ => successAttempt) false 10 true
      = ([], .ok (some (successAttempt.resp, some (.obj successEnvEntries))))
    ∧ (JSON.obj successEnvEntries).get? "data"
      = some (.obj [("type", .str "test"), ("id", .str "a"),
                    ("attributes", .obj [("n", .num 1)])]) :=
  request_success_returns_data (fun _ => successAttempt) 10 successEnvEntries _
    (by decide) rfl rfl rfl

/-- C3: on a well-formed error envelope, the retry delay is selected by the
first error's fields: a `status` other than `"429"` re-raises the
`APIErrorException` immediately with no sleep; `code "E42900"` sleeps 3 and
retries with the budget decremented; `code "E42901"` sleeps
`max(1, int(X-RateLimit-Reset))`, or 3 when that header is absent, and
retries; any other code re-raises immediately with no sleep. -/
theorem retry_delay_selection (T : Nat → Attempt) (fr rd : Bool) (a : Nat)
    (n : Int) (env : JSON) (resp : Response) (err : JSON) (rest : List JSON)
    (sv : JSON)
    (hp : plain_request fr (T a) rd = .error (.apiError env resp))
    (he : pyGetItem env "errors" = .ok (.arr (err :: rest)))
    (hst : pyGetItem err "status" = .ok sv) :
    (sv.eqStr "429" = false →
      retry_request T fr rd a n = ([], .error (.apiError env resp)))
    ∧ (sv.eqStr "429" = true → ∀ cv, pyGetItem err "code" = .ok cv →
        (cv.eqStr "E42900" = true → ¬ n ≤ 0 →
          retry_request T fr rd a n
            = (3 :: (retry_request T fr rd (a + 1) (n - 1)).1,
               (retry_request T fr rd (a + 1) (n - 1)).2))
        ∧ (cv.eqStr "E42900" = false → cv.eqStr "E42901" = true →
            (∀ s m, resp.getheader "X-RateLimit-Reset" = some s →
              pyInt? s = some m → ¬ n ≤ 0 →
              retry_request T fr rd a n
                = (max 1 m :: (retry_request T fr rd (a + 1) (n - 1)).1,
                   (retry_request T fr rd (a + 1) (n - 1)).2))
            ∧ (resp.getheader "X-RateLimit-Reset" = none → ¬ n ≤ 0 →
              retry_request T fr rd a n
                = (3 :: (retry_request T fr rd (a + 1) (n - 1)).1,
                   (retry_request T fr rd (a + 1) (n - 1)).2)))
        ∧ (cv.eqStr "E42900" = false → cv.eqStr "E42901" = false →
            retry_request T fr rd a n = ([], .error (.apiError env resp)))) := by
  constructor
  · intro hsv
    exact retry_request_non429 n hp he hst hsv
  · intro hsv cv hc
    refine ⟨?_, ?_, ?_⟩
    · intro h0 hn
      exact retry_request_E42900_step n hp he hst hsv hc h0 hn
    · intro h0 h1
      constructor
      · intro s m hh hm hn
        exact retry_request_E42901_header_step n hp he hst hsv hc h0 h1 hh hm hn
      · intro hh hn
        exact retry_request_E42901_noheader_step n hp he hst hsv hc h0 h1 hh hn
    · intro h0 h1
      exact retry_request_unknown_code n hp he hst hsv hc h0 h1

/-- Fixture: the `E42901` rate-limit error object. -/
def rateLimitError901 : JSON :=
  .obj [("status", .str "429"), ("code", .str "E42901"),
        ("title", .str "Rate limit exceeded")]

/-- Fixture: the error envelope containing just `rateLimitError901`. -/
def rateLimitEnv901 : JSON :=
  .obj [("errors", .arr [rateLimitError901])]

/-- Fixture: a 429 response carrying `rateLimitEnv901` and an
`X-RateLimit-Reset: 5` header. -/
def rateLimitResp901 : Response :=
  { status := 429, body := .json rateLimitEnv901,
    headers := [("X-RateLimit-Reset", "5")] }

/-- Fixture: the transport attempt delivering `rateLimitResp901`. -/
def rateLimitAttempt901 : Attempt :=
  { resp := rateLimitResp901, redirectTarget := none }

/-- Witness for C3: with `X-RateLimit-Reset: 5` on an `E42901` error, the
sleep argument is `5` and the request is retried with the budget
decremented. -/
theorem retry_delay_selection_witness :
    pyInt? "5" = some 5
    ∧ retry_request (fun _ => rateLimitAttempt901) false true 0 3
        = ((5 : Int) :: (retry_request (fun _ => rateLimitAttempt901) false true 1 2).1,
           (retry_request (fun _ => rateLimitAttempt901) false true 1 2).2) := by
  refine ⟨by decide, ?_⟩
  have h := (retry_delay_selection (fun _ => rateLimitAttempt901) false true 0 3
      rateLimitEnv901 rateLimitResp901 rateLimitError901 [] (.str "429")
      rfl rfl rfl).2 rfl (.str "E42901") rfl
  have h2 := (h.2.1 rfl rfl).1 "5" 5 rfl (by decide) (by omega)
  rw [show (max 1 5 : Int) = 5 from by omega] at h2
  exact h2

/-- Fixture: a 429 response carrying `rateLimitEnv901` with no headers. -/
def rateLimitRespNoHdr : Response :=
  { status := 429, body := .json rateLimitEnv901, headers := [] }

/-- Fixture: the transport attempt delivering `rateLimitRespNoHdr`. -/
def rateLimitAttemptNoHdr : Attempt :=
  { resp := rateLimitRespNoHdr, redirectTarget := none }

/-- C4: with retry budget `retries = 3` and four consecutive retryable
429/E42901 error responses, `Requestor.request` calls the injected wait
function exactly 3 times (re-issuing the request with the budget decremented
after each) and re-raises the fourth error instead of retrying again; in
general the number of waits is bounded by the budget, which strictly
decreases on each retry, so the retry recursion terminates. -/
theorem retry_budget_exhaustion (T : Nat → Attempt) (fr rd : Bool)
    (env : JSON) (resp : Response) (err : JSON) (rest : List JSON)
    (hp : ∀ i, i ≤ 3 → plain_request fr (T i) rd = .error (.apiError env resp))
    (he : pyGetItem env "errors" = .ok (.arr (err :: rest)))
    (hst : pyGetItem err "status" = .ok (.str "429"))
    (hc : pyGetItem err "code" = .ok (.str "E42901"))
    (hh : resp.getheader "X-RateLimit-Reset" = none) :
    request T fr 3 rd = ([3, 3, 3], .error (.apiError env resp))
    ∧ (∀ (U : Nat → Attempt) (fr' rd' : Bool) (a : Nat) (m : Int),
        ((retry_request U fr' rd' a m).1).length ≤ m.toNat) := by
  have h3 : retry_request T fr rd 3 0 = ([], .error (.apiError env resp)) :=
    retry_request_exhausted 0 (hp 3 (by omega)) he hst rfl hc
      (Or.inr ⟨rfl, Or.inl hh⟩) (by omega)
  have h2 : retry_request T fr rd 2 1 = ([3], .error (.apiError env resp)) := by
    rw [retry_request_E42901_noheader_step 1 (hp 2 (by omega)) he hst rfl hc rfl rfl hh
      (by omega)]
    simp [h3]
  have h1 : retry_request T fr rd 1 2 = ([3, 3], .error (.apiError env resp)) := by
    rw [retry_request_E42901_noheader_step 2 (hp 1 (by omega)) he hst rfl hc rfl rfl hh
      (by omega)]
    simp [h2]
  have h0 : retry_request T fr rd 0 3 = ([3, 3, 3], .error (.apiError env resp)) := by
    rw [retry_request_E42901_noheader_step 3 (hp 0 (by omega)) he hst rfl hc rfl rfl hh
      (by omega)]
    simp [h1]
  exact ⟨h0, fun U fr' rd' a m => retry_request_waits_length U fr' rd' a m⟩

/-- Witness for C4: a constant transport answering every attempt with the
same header-less 429/E42901 error envelope. -/
theorem retry_budget_exhaustion_witness :
    (∀ i, i ≤ 3 → plain_request false ((fun _ => rateLimitAttemptNoHdr) i) true
        = .error (.apiError rateLimitEnv901 rateLimitRespNoHdr))
    ∧ request (fun _ => rateLimitAttemptNoHdr) false 3 true
        = ([3, 3, 3], .error (.apiError rateLimitEnv901 rateLimitRespNoHdr)) :=
  ⟨fun _ _ => rfl,
   (retry_budget_exhaustion (fun _ => rateLimitAttemptNoHdr) false true
      rateLimitEnv901 rateLimitRespNoHdr rateLimitError901 []
      (fun _ _ => rfl) rfl rfl rfl rfl).1⟩

theorem hasKey_lookup {l : List (String × JSON)} {k : String}
    (h : listHasKey l k = true) : ∃ v, lookup l k = some v := by
  induction l with
  | nil => simp [listHasKey] at h
  | cons p rest ih =>
    by_cases hp : (p.1 == k) = true
    · exact ⟨p.2, by simp [lookup, List.find?, hp]⟩
    · rw [Bool.not_eq_true] at hp
      simp only [listHasKey, List.any_cons, hp, Bool.false_or] at h
      obtain ⟨v, hv⟩ := ih h
      exact ⟨v, by simp only [lookup, List.find?, hp] at hv ⊢; exact hv⟩

theorem lookup_append_some {l₁ l₂ : List (String × JSON)} {k : String} {v : JSON}
    (h : lookup l₁ k = some v) : lookup (l₁ ++ l₂) k = some v := by
  induction l₁ with
  | nil => simp [lookup] at h
  | cons p rest ih =>
    by_cases hp : (p.1 == k) = true
    · simp only [lookup, List.find?, hp] at h ⊢
      exact h
    · rw [Bool.not_eq_true] at hp
      simp only [lookup, List.find?, hp] at h ⊢
      exact ih h

theorem lookup_append_none {l₁ l₂ : List (String × JSON)} {k : String}
    (h : lookup l₁ k = none) : lookup (l₁ ++ l₂) k = lookup l₂ k := by
  induction l₁ with
  | nil => simp
  | cons p rest ih =>
    by_cases hp : (p.1 == k) = true
    · simp [lookup, List.find?, hp] at h
    · rw [Bool.not_eq_true] at hp
      simp only [lookup, List.find?, hp] at h ⊢
      exact ih h

theorem lookup_cons_self {p : String × JSON} {rest : List (String × JSON)}
    {k : String} (hp : (p.1 == k) = true) :
    lookup (p :: rest) k = some p.2 := by
  simp [lookup, List.find?, hp]

theorem lookup_cons_ne {p : String × JSON} {rest : List (String × JSON)}
    {k : String} (hp : (p.1 == k) = false) :
    lookup (p :: rest) k = lookup rest k := by
  simp [lookup, List.find?, hp]

theorem lookup_map_update_hit {old new : List (String × JSON)} {k : String}
    {v : JSON} (hk : listHasKey old k = true) (h : lookup new k = some v) :
    lookup (old.map (fun p =>
      match lookup new p.1 with
      | some w => (p.1, w)
      | none => p)) k = some v := by
  induction old with
  | nil => simp [listHasKey] at hk
  | cons p rest ih =>
    by_cases hp : (p.1 == k) = true
    · have hp1 : p.1 = k := eq_of_beq hp
      simp only [List.map_cons, hp1, h]
      exact lookup_cons_self (by simp)
    · rw [Bool.not_eq_true] at hp
      simp only [listHasKey, List.any_cons, hp, Bool.false_or] at hk
      cases hnew : lookup new p.1 with
      | none =>
        simp only [List.map_cons, hnew]
        rw [lookup_cons_ne hp]
        exact ih hk
      | some w =>
        simp only [List.map_cons, hnew]
        rw [lookup_cons_ne (p := (p.1, w)) hp]
        exact ih hk

theorem lookup_map_update_miss {old new : List (String × JSON)} {k : String}
    (hk : listHasKey old k = false) :
    lookup (old.map (fun p =>
      match lookup new p.1 with
      | some w => (p.1, w)
      | none => p)) k = none := by
  induction old with
  | nil => simp [lookup]
  | cons p rest ih =>
    simp only [listHasKey, List.any_cons, Bool.or_eq_false_iff] at hk
    have hk2 : listHasKey rest k = false := hk.2
    cases hnew : lookup new p.1 with
    | none =>
      simp only [List.map_cons, hnew]
      rw [lookup_cons_ne hk.1]
      exact ih hk2
    | some w =>
      simp only [List.map_cons, hnew]
      rw [lookup_cons_ne (p := (p.1, w)) hk.1]
      exact ih hk2

theorem lookup_filter_not_old {old new : List (String × JSON)} {k : String}
    (hk : listHasKey old k = false) :
    lookup (new.filter (fun p => !(listHasKey old p.1))) k = lookup new k := by
  induction new with
  | nil => simp
  | cons q rest ih =>
    by_cases hq : (q.1 == k) = true
    · have hq1 : q.1 = k := eq_of_beq hq
      have hold : listHasKey old q.1 = false := by rw [hq1]; exact hk
      simp only [List.filter_cons, hold, Bool.not_false]
      rw [if_pos trivial, lookup_cons_self hq, lookup_cons_self hq]
    · rw [Bool.not_eq_true] at hq
      by_cases hold : listHasKey old q.1 = true
      · simp only [List.filter_cons, hold, Bool.not_true]
        rw [if_neg (by simp), lookup_cons_ne hq]
        exact ih
      · rw [Bool.not_eq_true] at hold
        simp only [List.filter_cons, hold, Bool.not_false]
        rw [if_pos trivial, lookup_cons_ne hq, lookup_cons_ne hq]
        exact ih

theorem lookup_dictUpdate_of_new {old new : List (String × JSON)} {k : String}
    {v : JSON} (h : lookup new k = some v) :
    lookup (dictUpdate old new) k = some v := by
  unfold dictUpdate
  by_cases hk : listHasKey old k = true
  · exact lookup_append_some (lookup_map_update_hit hk h)
  · rw [Bool.not_eq_true] at hk
    rw [lookup_append_none (lookup_map_update_miss hk), lookup_filter_not_old hk]
    exact h

/-- C5: every point that turns a decoded `"data"` value into a domain entity
(`Account.start_test`, `Test.fetch`, `Test._fromURL`, `Report._fromURL`,
`Report.retest`, each member of `Account.list_tests`, `Account.status`)
checks the matching shape predicate first and raises `APIFailureException` on
a mismatch, never silently constructing the entity. -/
theorem entity_shape_gate (T : Nat → Attempt) (t : TestState) (ws : List Int)
    (resp : Response) (kvs : List (String × JSON)) (d : JSON) (url : String)
    (attrs : List (String × JSON)) (idv : String)
    (hreq : request T false 10 true = (ws, .ok (some (resp, some (.obj kvs)))))
    (hid : lookup t.entries "id" = some (.str idv))
    (hd : lookup kvs "data" = some d) :
    (dict_is_test d = false →
      (Account.start_test T url attrs).2
        = (ws, .error (.failure "API returned non-test for a started test"))
      ∧ Test.fetch t (fun _ => T) false 10
        = (ws, .error (.failure "API returned non-test for a test"))
      ∧ Test.fromURL T = (ws, .error (.failure "API returned non-test for a test"))
      ∧ Report.retest T = (ws, .error (.failure "API returned non-test for a retest")))
    ∧ (dict_is_report d = false →
        Report.fromURL T = (ws, .error (.failure "API returned non-report for a report")))
    ∧ (dict_is_user d = false →
        Account.status T = (ws, .error (.failure "API returned non-user for status")))
    ∧ (d.isArr = false →
        Account.list_tests T
          = (ws, .error (.failure "API returned non-list for a list of tests")))
    ∧ (∀ l, d = .arr l → l.all dict_is_test = false →
        Account.list_tests T
          = (ws, .error (.failure "API returned non-test in a list of tests"))) := by
  have hod : optGetItem (some (.obj kvs)) "data" = .ok d := by
    simp [optGetItem, pyGetItem, hd]
  refine ⟨?_, ?_, ?_, ?_, ?_⟩
  · intro hdt
    refine ⟨?_, ?_, ?_, ?_⟩
    · simp [Account.start_test, hreq, hod, hdt]
    · rw [Test.fetch.eq_def]
      simp [hid, hreq, hod, hdt]
    · simp [Test.fromURL, hreq, hod, hdt]
    · simp [Report.retest, hreq, hod, hdt]
  · intro hdr
    simp [Report.fromURL, hreq, hod, hdr]
  · intro hdu
    simp [Account.status, hreq, hod, hdu]
  · intro hiArr
    cases d with
    | arr l => simp [JSON.isArr] at hiArr
    | null => simp [Account.list_tests, hreq, hod]
    | bool b => simp [Account.list_tests, hreq, hod]
    | num m => simp [Account.list_tests, hreq, hod]
    | str s => simp [Account.list_tests, hreq, hod]
    | obj o => simp [Account.list_tests, hreq, hod]
  · intro l hl hall
    subst hl
    simp [Account.list_tests, hreq, hod, hall]

/-- Fixture: a 200 response whose `data` is `{"type": "test", "id": "a"}`,
with no `attributes` key. -/
def noAttrEnvEntries : List (String × JSON) :=
  [("data", .obj [("type", .str "test"), ("id", .str "a")])]

/-- Fixture: the transport attempt delivering `noAttrEnvEntries`. -/
def noAttrAttempt : Attempt :=
  { resp := { status := 200, body := .json (.obj noAttrEnvEntries), headers := [] },
    redirectTarget := none }

/-- Witness for C5: a decoded `data` of `{"type": "test", "id": "a"}` (no
`attributes`) makes `Test.fetch` raise `APIFailureException`. -/
theorem entity_shape_gate_witness :
    dict_is_test (.obj [("type", .str "test"), ("id", .str "a")]) = false
    ∧ Test.fetch (Test.mk [("id", .str "a")]) (fun _ _ => noAttrAttempt) false 10
        = ([], .error (.failure "API returned non-test for a test")) :=
  ⟨by decide,
   ((entity_shape_gate (fun _ => noAttrAttempt) (Test.mk [("id", .str "a")]) []
      noAttrAttempt.resp noAttrEnvEntries
      (.obj [("type", .str "test"), ("id", .str "a")]) "u" [] "a"
      (retry_request_ok rfl) rfl rfl).1 (by decide)).2.1⟩

/-- C6: in the default redirect-suppressing mode, a `Test.fetch` response
with a 3xx status and a valid test envelope is terminal and
non-exceptional: the body is parsed and used to update the `Test`'s state in
place, and the redirect target (quantified here by `U`'s `redirectTarget`,
left arbitrary) is never requested. -/
theorem fetch_redirect_suppressed (t : TestState) (U : Nat → Nat → Attempt)
    (n : Int) (kvs : List (String × JSON)) (d : JSON) (idv : String)
    (hid : lookup t.entries "id" = some (.str idv))
    (h3 : 300 ≤ (U 0 0).resp.status) (h4 : (U 0 0).resp.status < 400)
    (hb : (U 0 0).resp.body = .json (.obj kvs))
    (herr : listHasKey kvs "errors" = false)
    (hd : lookup kvs "data" = some d)
    (ht : dict_is_test d = true) :
    Test.fetch t U false n
      = ([], .ok { t with entries := dictUpdate t.entries d.objEntries }) := by
  have hreq : request (U 0) false 10 true
      = ([], .ok (some ((U 0 0).resp, some (.obj kvs)))) :=
    retry_request_ok (plain_request_success h4 hb herr (lookup_hasKey hd))
  have hod : optGetItem (some (.obj kvs)) "data" = .ok d := by
    simp [optGetItem, pyGetItem, hd]
  rw [Test.fetch.eq_def]
  simp only [hid, hreq, hod, ht]
  cases hra : (U 0 0).resp.getheader "Retry-After" with
  | none => simp [hra]
  | some dl => simp [hra]

/-- Fixture: a 303 redirect response that nevertheless carries the full
test envelope `successEnvEntries`, plus a distinct redirect target that must
never be consulted. -/
def redirect303Attempt : Attempt :=
  { resp := { status := 303, body := .json (.obj successEnvEntries),
              headers := [("Location", "https://gtmetrix.com/api/2.0/tests/a")] },
    redirectTarget := some { status := 200, body := .empty, headers := [] } }

/-- Witness for C6: the 303 body is parsed into the test state and the
redirect target is ignored. -/
theorem fetch_redirect_suppressed_witness :
    (300 ≤ redirect303Attempt.resp.status ∧ redirect303Attempt.resp.status < 400)
    ∧ Test.fetch (Test.mk [("id", .str "a")]) (fun _ _ => redirect303Attempt) false 10
        = ([], .ok (TestState.mk
            (dictUpdate [("id", .str "a")]
              (JSON.obj [("type", .str "test"), ("id", .str "a"),
                         ("attributes", .obj [("n", .num 1)])]).objEntries)
            none)) :=
  ⟨⟨by decide, by decide⟩,
   fetch_redirect_suppressed (Test.mk [("id", .str "a")])
     (fun _ _ => redirect303Attempt) 10 successEnvEntries
     (.obj [("type", .str "test"), ("id", .str "a"),
            ("attributes", .obj [("n", .num 1)])])
     "a" rfl (by decide) (by decide) rfl rfl rfl (by decide)⟩

/-- C7: for a `Test` constructed from
`{"type": "test", "id": "a", "attributes": {"n": 1}}`, fetching a response
whose data maps `n` to 2 updates the state of that same instance in place
(the model returns the updated state of the instance rather than
constructing a new `Test`; the `_report` cache and identity are untouched),
after which its `attributes` mapping has `n == 2`. -/
theorem fetch_roundtrip_updates_n (U : Nat → Nat → Attempt) (n : Int)
    (kvs dkvs akvs : List (String × JSON))
    (hs : (U 0 0).resp.status < 400)
    (hb : (U 0 0).resp.body = .json (.obj kvs))
    (herr : listHasKey kvs "errors" = false)
    (hd : lookup kvs "data" = some (.obj dkvs))
    (ht : dict_is_test (.obj dkvs) = true)
    (ha : lookup dkvs "attributes" = some (.obj akvs))
    (hn2 : lookup akvs "n" = some (.num 2)) :
    Test.fetch (Test.mk [("type", .str "test"), ("id", .str "a"),
        ("attributes", .obj [("n", .num 1)])]) U false n
      = ([], .ok (TestState.mk
          (dictUpdate [("type", .str "test"), ("id", .str "a"),
            ("attributes", .obj [("n", .num 1)])] dkvs) none))
    ∧ lookup (dictUpdate [("type", .str "test"), ("id", .str "a"),
        ("attributes", .obj [("n", .num 1)])] dkvs) "attributes"
        = some (.obj akvs)
    ∧ lookup akvs "n" = some (.num 2) := by
  refine ⟨?_, lookup_dictUpdate_of_new ha, hn2⟩
  have hreq : request (U 0) false 10 true
      = ([], .ok (some ((U 0 0).resp, some (.obj kvs)))) :=
    retry_request_ok (plain_request_success hs hb herr (lookup_hasKey hd))
  have hod : optGetItem (some (.obj kvs)) "data" = .ok (.obj dkvs) := by
    simp [optGetItem, pyGetItem, hd]
  rw [Test.fetch.eq_def]
  simp only [hreq, hod, ht]
  cases hra : (U 0 0).resp.getheader "Retry-After" with
  | none => simp [hra, Test.mk, JSON.objEntries, lookup, List.find?]
  | some dl => simp [hra, Test.mk, JSON.objEntries, lookup, List.find?]

/-- Fixture: a 200 response whose data updates `n` to 2. -/
def updatedAttempt : Attempt :=
  { resp := { status := 200,
              body := .json (.obj [("data",
                .obj [("type", .str "test"), ("id", .str "a"),
                      ("attributes", .obj [("n", .num 2)])])]),
              headers := [] },
    redirectTarget := none }

/-- Witness for C7: the round trip at the concrete instance. -/
theorem fetch_roundtrip_updates_n_witness :
    Test.fetch (Test.mk [("type", .str "test"), ("id", .str "a"),
        ("attributes", .obj [("n", .num 1)])]) (fun _ _ => updatedAttempt) false 10
      = ([], .ok (TestState.mk
          (dictUpdate [("type", .str "test"), ("id", .str "a"),
            ("attributes", .obj [("n", .num 1)])]
            [("type", .str "test"), ("id", .str "a"),
             ("attributes", .obj [("n", .num 2)])]) none))
    ∧ lookup (dictUpdate [("type", .str "test"), ("id", .str "a"),
        ("attributes", .obj [("n", .num 1)])]
        [("type", .str "test"), ("id", .str "a"),
         ("attributes", .obj [("n", .num 2)])]) "attributes"
        = some (.obj [("n", .num 2)])
    ∧ lookup [("n", .num 2)] "n" = some (.num 2) :=
  fetch_roundtrip_updates_n (fun _ _ => updatedAttempt) 10
    [("data", .obj [("type", .str "test"), ("id", .str "a"),
                    ("attributes", .obj [("n", .num 2)])])]
    [("type", .str "test"), ("id", .str "a"),
     ("attributes", .obj [("n", .num 2)])]
    [("n", .num 2)]
    (by decide) rfl rfl rfl (by decide) rfl rfl

/-- C8: `Test.getreport` on a `Test` whose mapping has no `links` key, or
whose `links` mapping has no `report` key, returns `None`, leaves the state
unchanged, makes no sleep call and issues no HTTP request at all — the
result does not depend on the transport, which is universally quantified. -/
theorem getreport_absent_no_request (t : TestState) (hrep : t.report = none)
    (h : listHasKey t.entries "links" = false
         ∨ ∃ lkvs, lookup t.entries "links" = some (.obj lkvs)
             ∧ listHasKey lkvs "report" = false) :
    ∀ T : Nat → Attempt, Test.getreport t T = ([], .ok (t, none)) := by
  intro T
  unfold Test.getreport
  rw [hrep]
  rcases h with h | ⟨lkvs, hl, hr⟩
  · simp [h]
  · simp [lookup_hasKey hl, hl, pyIn, hr]

/-- Witness for C8: a fresh `Test` without a `links` key. -/
theorem getreport_absent_no_request_witness :
    (Test.mk [("type", .str "test"), ("id", .str "a"),
              ("attributes", .obj [])]).report = none
    ∧ Test.getreport (Test.mk [("type", .str "test"), ("id", .str "a"),
        ("attributes", .obj [])]) (fun _ => successAttempt)
        = ([], .ok (Test.mk [("type", .str "test"), ("id", .str "a"),
            ("attributes", .obj [])], none)) :=
  ⟨rfl,
   getreport_absent_no_request _ rfl (Or.inl (by decide)) (fun _ => successAttempt)⟩

theorem retry_request_wellformed_error_snd (T : Nat → Attempt) (A : Attempt)
    (fr rd : Bool) (kvs : List (String × JSON)) (l : List JSON)
    (hT : ∀ i, T i = A) (hs : 400 ≤ A.resp.status)
    (hb : A.resp.body = .json (.obj kvs))
    (hl : lookup kvs "errors" = some (.arr l)) (hne : l ≠ [])
    (hall : l.all dict_is_error = true)
    (hhdr : ∀ s, A.resp.getheader "X-RateLimit-Reset" = some s →
      (pyInt? s).isSome = true) :
    ∀ (m : Nat) (a : Nat) (n : Int), n.toNat = m →
      (retry_request T fr rd a n).2 = .error (.apiError (.obj kvs) A.resp) := by
  have hp : ∀ a, plain_request fr (T a) rd = .error (.apiError (.obj kvs) A.resp) := by
    intro a
    rw [hT a]
    exact plain_request_error_envelope fr rd hs hb hl hne hall
  have he : pyGetItem (.obj kvs) "errors" = .ok (.arr l) := by
    simp [pyGetItem, hl]
  obtain ⟨err, rest, rfl⟩ : ∃ err rest, l = err :: rest := by
    cases l with
    | nil => exact absurd rfl hne
    | cons e r => exact ⟨e, r, rfl⟩
  have herr : dict_is_error err = true := by
    simp only [List.all_cons, Bool.and_eq_true] at hall
    exact hall.1
  obtain ⟨ekvs, rfl⟩ : ∃ ekvs, err = JSON.obj ekvs := by
    cases err with
    | obj ekvs => exact ⟨ekvs, rfl⟩
    | null => simp [dict_is_error, JSON.isObj] at herr
    | bool b => simp [dict_is_error, JSON.isObj] at herr
    | num m => simp [dict_is_error, JSON.isObj] at herr
    | str s => simp [dict_is_error, JSON.isObj] at herr
    | arr xs => simp [dict_is_error, JSON.isObj] at herr
  simp only [dict_is_error, JSON.isObj, JSON.hasKey, Bool.true_and,
    Bool.and_eq_true] at herr
  obtain ⟨sv, hsv⟩ := hasKey_lookup herr.1.1
  obtain ⟨cv, hcv⟩ := hasKey_lookup herr.1.2
  have hstatus : pyGetItem (.obj ekvs) "status" = .ok sv := by
    simp [pyGetItem, hsv]
  have hcode : pyGetItem (.obj ekvs) "code" = .ok cv := by
    simp [pyGetItem, hcv]
  intro m
  induction m with
  | zero =>
    intro a n hn
    have hn0 : n ≤ 0 := by omega
    by_cases h429 : sv.eqStr "429" = true
    · by_cases h900 : cv.eqStr "E42900" = true
      · rw [retry_request_exhausted n (hp a) he hstatus h429 hcode (Or.inl h900) hn0]
      · by_cases h901 : cv.eqStr "E42901" = true
        · cases hh : A.resp.getheader "X-RateLimit-Reset" with
          | none =>
            rw [retry_request_exhausted n (hp a) he hstatus h429 hcode
              (Or.inr ⟨h901, Or.inl hh⟩) hn0]
          | some s =>
            obtain ⟨mv, hmv⟩ := Option.isSome_iff_exists.mp (hhdr s hh)
            rw [retry_request_exhausted n (hp a) he hstatus h429 hcode
              (Or.inr ⟨h901, Or.inr ⟨s, mv, hh, hmv⟩⟩) hn0]
        · rw [retry_request_unknown_code n (hp a) he hstatus h429 hcode
            (by simpa using h900) (by simpa using h901)]
    · rw [retry_request_non429 n (hp a) he hstatus (by simpa using h429)]
  | succ m ih =>
    intro a n hn
    have hnpos : ¬ n ≤ 0 := by omega
    by_cases h429 : sv.eqStr "429" = true
    · by_cases h900 : cv.eqStr "E42900" = true
      · rw [retry_request_E42900_step n (hp a) he hstatus h429 hcode h900 hnpos]
        exact ih (a + 1) (n - 1) (by omega)
      · by_cases h901 : cv.eqStr "E42901" = true
        · cases hh : A.resp.getheader "X-RateLimit-Reset" with
          | none =>
            rw [retry_request_E42901_noheader_step n (hp a) he hstatus h429 hcode
              (by simpa using h900) h901 hh hnpos]
            exact ih (a + 1) (n - 1) (by omega)
          | some s =>
            obtain ⟨mv, hmv⟩ := Option.isSome_iff_exists.mp (hhdr s hh)
            rw [retry_request_E42901_header_step n (hp a) he hstatus h429 hcode
              (by simpa using h900) h901 hh hmv hnpos]
            exact ih (a + 1) (n - 1) (by omega)
        · rw [retry_request_unknown_code n (hp a) he hstatus h429 hcode
            (by simpa using h900) (by simpa using h901)]
    · rw [retry_request_non429 n (hp a) he hstatus (by simpa using h429)]

/-- Fixture: a 400 response whose body is the JSON literal `null`. -/
def nullBodyAttempt : Attempt :=
  { resp := { status := 400, body := .json .null, headers := [] },
    redirectTarget := none }

/-- C2 counterexample: a 400 response whose body parses as JSON to `null` —
which parses fine and "lacks a non-empty list under key errors" — makes the
Python membership test `"errors" in json_data` raise a `TypeError`, so
`request` raises neither `APIErrorFailureException` nor `APIErrorException`,
contrary to the claim's classification of every such body. -/
theorem request_error_null_body_counterexample :
    request (fun _ => nullBodyAttempt) false 10 true = ([], .error .pyError)
    ∧ Exc.pyError.isErrorFailure = false
    ∧ Exc.pyError.isAPIError = false :=
  ⟨retry_request_pass rfl rfl, rfl, rfl⟩

/-- C2 (amended): for a response with HTTP status ≥ 400, `request` never
returns normally.  An empty or unparsable body, and a body parsing to a JSON
*object* that lacks a non-empty list of error-shaped members under
`"errors"`, raise `APIErrorFailureException`; a well-formed error envelope
raises `APIErrorException` carrying the parsed envelope (provided any
`X-RateLimit-Reset` header consulted for an `E42901` retry parses as an
integer); a body parsing to JSON on which the Python `in` check raises
escapes as an unhandled `TypeError` instead. -/
theorem request_error_classification (T : Nat → Attempt) (A : Attempt)
    (fr rd : Bool) (n : Int)
    (hT : ∀ i, T i = A) (hs : 400 ≤ A.resp.status) :
    (A.resp.body = .empty →
      request T fr n rd = ([], .error (.errorFailure "API returned empty response")))
    ∧ (A.resp.body = .unparsable →
      request T fr n rd = ([], .error (.errorFailure "API returned unparsable JSON")))
    ∧ (∀ kvs, A.resp.body = .json (.obj kvs) →
        (listHasKey kvs "errors" = false →
          request T fr n rd = ([], .error (.errorFailure
            "API returned no errors with an HTTP code 400 or over")))
        ∧ (∀ j, lookup kvs "errors" = some j → j.isArr = false →
          request T fr n rd = ([], .error (.errorFailure
            "API returned non-list of errors")))
        ∧ (lookup kvs "errors" = some (.arr []) →
          request T fr n rd = ([], .error (.errorFailure
            "API returned empty list of errors")))
        ∧ (∀ l, lookup kvs "errors" = some (.arr l) → l ≠ [] →
            l.all dict_is_error = false →
          request T fr n rd = ([], .error (.errorFailure
            "API returned non-error in error list")))
        ∧ (∀ l, lookup kvs "errors" = some (.arr l) → l ≠ [] →
            l.all dict_is_error = true →
            (∀ s, A.resp.getheader "X-RateLimit-Reset" = some s →
              (pyInt? s).isSome = true) →
          (request T fr n rd).2 = .error (.apiError (.obj kvs) A.resp)))
    ∧ (∀ j, A.resp.body = .json j → pyIn "errors" j = .error () →
        request T fr n rd = ([], .error .pyError)) := by
  refine ⟨?_, ?_, ?_, ?_⟩
  · intro hb
    have hplain : plain_request fr (T 0) rd
        = .error (.errorFailure "API returned empty response") := by
      rw [hT 0]
      simp only [plain_request, opener_open_ge400 fr A hs, hb]
      rw [if_pos hs]
    exact retry_request_pass hplain rfl
  · intro hb
    have hplain : plain_request fr (T 0) rd
        = .error (.errorFailure "API returned unparsable JSON") := by
      rw [hT 0]
      simp only [plain_request, opener_open_ge400 fr A hs, hb]
      rw [if_pos hs]
    exact retry_request_pass hplain rfl
  · intro kvs hb
    refine ⟨?_, ?_, ?_, ?_, ?_⟩
    · intro hkerr
      have hplain : plain_request fr (T 0) rd = .error (.errorFailure
          "API returned no errors with an HTTP code 400 or over") := by
        rw [hT 0]
        simp only [plain_request, opener_open_ge400 fr A hs, hb]
        rw [if_pos hs]
        simp [pyIn, hkerr]
      exact retry_request_pass hplain rfl
    · intro j hj hjarr
      have hk : listHasKey kvs "errors" = true := lookup_hasKey hj
      have hplain : plain_request fr (T 0) rd = .error (.errorFailure
          "API returned non-list of errors") := by
        rw [hT 0]
        simp only [plain_request, opener_open_ge400 fr A hs, hb]
        rw [if_pos hs]
        cases j with
        | arr l => simp [JSON.isArr] at hjarr
        | null => simp [pyIn, hk, pyGetItem, hj]
        | bool b => simp [pyIn, hk, pyGetItem, hj]
        | num m => simp [pyIn, hk, pyGetItem, hj]
        | str s => simp [pyIn, hk, pyGetItem, hj]
        | obj o => simp [pyIn, hk, pyGetItem, hj]
      exact retry_request_pass hplain rfl
    · intro hj
      have hk : listHasKey kvs "errors" = true := lookup_hasKey hj
      have hplain : plain_request fr (T 0) rd = .error (.errorFailure
          "API returned empty list of errors") := by
        rw [hT 0]
        simp only [plain_request, opener_open_ge400 fr A hs, hb]
        rw [if_pos hs]
        simp [pyIn, hk, pyGetItem, hj]
      exact retry_request_pass hplain rfl
    · intro l hj hne hall
      have hk : listHasKey kvs "errors" = true := lookup_hasKey hj
      have hplain : plain_request fr (T 0) rd = .error (.errorFailure
          "API returned non-error in error list") := by
        rw [hT 0]
        simp only [plain_request, opener_open_ge400 fr A hs, hb]
        rw [if_pos hs]
        simp [pyIn, hk, pyGetItem, hj, hall, Nat.lt_one_iff, List.length_eq_zero, hne]
      exact retry_request_pass hplain rfl
    · intro l hj hne hall hhdr
      exact retry_request_wellformed_error_snd T A fr rd kvs l hT hs hb hj hne hall
        hhdr n.toNat 0 n rfl
  · intro j hb hpy
    have hplain : plain_request fr (T 0) rd = .error .pyError := by
      rw [hT 0]
      simp only [plain_request, opener_open_ge400 fr A hs, hb]
      rw [if_pos hs]
      simp [hpy]
    exact retry_request_pass hplain rfl

/-- Fixture: a 500 response with an empty body. -/
def emptyBodyAttempt : Attempt :=
  { resp := { status := 500, body := .empty, headers := [] },
    redirectTarget := none }

/-- Witness for the amended C2: an empty 500 body raises
`APIErrorFailureException`. -/
theorem request_error_classification_witness :
    (400 ≤ emptyBodyAttempt.resp.status)
    ∧ request (fun _ => emptyBodyAttempt) false 10 true
        = ([], .error (.errorFailure "API returned empty response")) :=
  ⟨by decide,
   (request_error_classification (fun _ => emptyBodyAttempt) emptyBodyAttempt
      false true 10 (fun _ => rfl) (by decide)).1 rfl⟩
